import Mathlib

/-!
Verification model of the SlickRun launcher core (slickrun-ubuntu):
the window visibility / focus coordination engine of `src/app.rs`,
together with the persistence helpers of `src/settings.rs`.

The embedding is a shallow one: the per-frame `update` method of
`LauncherApp` (app.rs 839-1061) is modelled as a pure `tick` function on an
explicit `AppState`, staged exactly in source order (X11 locator, Mutter
position poll, FIFO toggle flag, global-hotkey queue drain, tray slot,
focus bookkeeping with drag-end detection and auto-hide, then the
settings-panel and parameter-dialog early-return branches).  External
effects (gdbus calls, X11 requests, file writes) are represented by the
per-tick inputs they depend on and by a `TickLog` of observable effects.
The on-disk config file written by `Settings::save` is modelled by the
`store` field (the config file always holds a full serialized `Settings`
value, so the store is a `Settings`).  Machine floats only ever carry
values cast from `i32` and are never computed with, so coordinates are
modelled as `Int`.  The command-bar rendering tail of `update`
(app.rs 1063-1208) only feeds the separately modelled operations
(`hideOp`, `save_position`, settings panel) and is not itself modelled.
-/

namespace SlickRun

/-- A window position: the `(x, y)` pair returned by the Mutter GetPosition
call and cached in `last_known_pos` (app.rs 34). -/
structure Pos where
  x : Int
  y : Int
deriving DecidableEq, Repr

/-- The fields of `Settings` (settings.rs 119-139) that the visibility core
reads or writes; the remaining fields are opaque UI configuration. -/
structure Settings where
  hide_on_inactive : Bool
  stay_on_top : Bool
  window_x : Option Int
  window_y : Option Int
deriving DecidableEq, Repr

/-- Tray menu action codes (app.rs 9-13). -/
def TRAY_NONE : Nat := 0

/-- Tray action code for Show/Hide (app.rs 11). -/
def TRAY_TOGGLE : Nat := 1

/-- Tray action code for Settings (app.rs 12). -/
def TRAY_SETTINGS : Nat := 2

/-- Tray action code for Quit (app.rs 13, dead in `update` because the
handler thread handles "quit" directly). -/
def TRAY_QUIT : Nat := 3

/-- The mutable state of `LauncherApp` (app.rs 15-37) plus the on-disk
settings store.  `x11_window_id = 0` means the handle is unresolved, as in
the source where the `AtomicU32` starts at 0.  `shared_pos` models the
`shared_pos_x`/`shared_pos_y` atomics (f32 bit-pattern cells initialised to
0, i.e. the value 0.0). -/
structure AppState where
  is_visible : Bool
  settings : Settings
  store : Settings
  settingsOpen : Bool
  draft : Settings
  was_focused : Bool
  dragging : Bool
  pending_w : Bool
  x11_window_id : Nat
  x11_search_attempts : Nat
  toggle_hotkey_id : Nat
  last_known_pos : Option Pos
  last_pos_query : Nat
  shared_pos : Pos
  toggle_signal : Bool
  tray_action : Nat
  hotkeyQueue : List Nat
  needs_initial_move : Bool
  quitting : Bool
deriving DecidableEq, Repr

/-- Which call site wrote the settings store during a tick. -/
inductive WriteSource
  | wHide
  | wQuit
  | wApply
deriving DecidableEq, Repr

/-- A trigger event consumed by the tick, tagged by producer. -/
inductive ProcEvent
  | evPipeToggle
  | evHotkeyToggle
  | evTrayToggle
  | evTraySettings
  | evTrayQuit
deriving DecidableEq, Repr

/-- Observable effects of one tick. -/
structure TickLog where
  locator_ran : Bool
  poll_query : Bool
  auto_hide_fired : Bool
  store_src : List WriteSource
  processed : List ProcEvent
deriving DecidableEq, Repr

/-- The empty log a tick starts from. -/
def emptyLog : TickLog :=
  { locator_ran := false, poll_query := false, auto_hide_fired := false,
    store_src := [], processed := [] }

/-- get_mutter_window_position (app.rs 187-207).  `raw` is the `(x, y)`
pair parsed from the gdbus stdout; `none` stands for a failed call or
unparseable output.  The source additionally rejects any pair in which a
coordinate is negative (`if x >= 0 && y >= 0`). -/
def get_mutter_window_position (raw : Option (Int × Int)) : Option Pos :=
  match raw with
  | none => none
  | some (x, y) => if 0 ≤ x ∧ 0 ≤ y then some ⟨x, y⟩ else none

/-- The body of `if let Some((x, y)) = pos` in save_position
(app.rs 632-638): update the in-memory settings, publish the shared
position atomics, and write the whole settings file. -/
def writePos (p : Pos) (s : AppState) : AppState :=
  let st := { s.settings with window_x := some p.x, window_y := some p.y }
  { s with settings := st, shared_pos := p, store := st }

/-- save_position (app.rs 627-642): prefer the cached position, otherwise
issue a fresh Mutter query (`q` is its result); skip persistence when
neither is available.  The returned Bool records whether a fresh query was
issued (the `or_else` closure ran). -/
def save_position (q : Option Pos) (s : AppState) : AppState × Bool :=
  match s.last_known_pos with
  | some p => (writePos p s, false)
  | none =>
    match q with
    | some p => (writePos p s, true)
    | none => (s, true)

/-- hide (app.rs 652-656): save the position, clear the visible flag,
request minimize (external). -/
def hideOp (q : Option Pos) (s : AppState) : AppState :=
  { (save_position q s).1 with is_visible := false }

/-- quit (app.rs 644-650): save the position, remove the FIFO (external)
and request an orderly close. -/
def quitOp (q : Option Pos) (s : AppState) : AppState :=
  { (save_position q s).1 with quitting := true }

/-- show (app.rs 658-720): set the visible flag, and reset focus tracking
so auto-hide does not fire on stale state (app.rs 697).  The reposition,
always-on-top and activation requests are external effects. -/
def showOp (s : AppState) : AppState :=
  { s with is_visible := true, was_focused := false }

/-- toggle_visibility (app.rs 619-625). -/
def toggle_visibility (q : Option Pos) (s : AppState) : AppState :=
  if s.is_visible then hideOp q s else showOp s

/-- apply_settings (app.rs 734-771): replace the in-memory settings with
the panel draft and write the whole settings file (`self.settings.save()`,
app.rs 752).  Resize, window-level and hotkey re-registration are external
effects. -/
def apply_settings (ns : Settings) (s : AppState) : AppState :=
  { s with settings := ns, store := ns }

/-- The tray handler's "quit" arm (app.rs 547-559): read the shared
position atomics, persist them into a freshly loaded settings value only
when they are not both 0.0, remove the FIFO (external) and exit. -/
def trayQuitHandler (s : AppState) : AppState :=
  if s.shared_pos = ⟨0, 0⟩ then
    { s with quitting := true }
  else
    { s with
      store := { s.store with
                  window_x := some s.shared_pos.x,
                  window_y := some s.shared_pos.y },
      quitting := true }

/-- decode of the tray menu id in the handler's non-quit arm
(app.rs 561-566). -/
def decodeTray (id : String) : Nat :=
  if id = "show_hide" then TRAY_TOGGLE
  else if id = "settings" then TRAY_SETTINGS
  else TRAY_NONE

/-- One trigger arriving between ticks, from one of the three producers:
a write to the FIFO pipe (app.rs 64-76), a tray menu event (app.rs
544-576), or a global-hotkey event queued by its listener. -/
inductive Arrival
  | pipeWrite
  | trayEvt (id : String)
  | hotkeyEvt (id : Nat)
deriving DecidableEq, Repr

/-- Effect of one arrival on the shared cells: the FIFO reader sets the
toggle flag (app.rs 68), the tray handler overwrites the single action
slot (app.rs 572) or performs quit directly (app.rs 547-559), the hotkey
listener appends to its event queue. -/
def applyArrival (s : AppState) (a : Arrival) : AppState :=
  match a with
  | Arrival.pipeWrite => { s with toggle_signal := true }
  | Arrival.trayEvt id =>
    if id = "quit" then trayQuitHandler s
    else { s with tray_action := decodeTray id }
  | Arrival.hotkeyEvt i => { s with hotkeyQueue := s.hotkeyQueue ++ [i] }

/-- All arrivals delivered before a tick, in arrival order. -/
def applyArrivals (s : AppState) (arr : List Arrival) : AppState :=
  arr.foldl applyArrival s

/-- User interaction with the open settings panel during a tick:
pressing ESC (app.rs 954) or clicking Save & Close (settings.rs 354-357,
returning the draft to `apply_settings`). -/
inductive PanelAction
  | pEscape
  | pSave
deriving DecidableEq, Repr

/-- User interaction with the open parameter dialog during a tick:
pressing Enter with a non-empty input (app.rs 1038-1048, executes the
magic word and hides) or ESC (app.rs 1049-1056). -/
inductive DialogAction
  | dEnter
  | dEscape
deriving DecidableEq, Repr

/-- Edits the settings UI can apply to the panel draft.  Only the two
behaviour checkboxes the model tracks are bound to widgets
(settings.rs 688-692); no widget binds `window_x` / `window_y`. -/
structure SettingsEdit where
  hide_on_inactive : Bool
  stay_on_top : Bool
deriving DecidableEq, Repr

/-- Apply a UI edit to the draft; position fields are untouched because the
panel exposes no widget for them. -/
def applyEdit (e : Option SettingsEdit) (d : Settings) : Settings :=
  match e with
  | none => d
  | some e =>
    { d with hide_on_inactive := e.hide_on_inactive,
             stay_on_top := e.stay_on_top }

/-- The environment of one redraw tick: the monotone clock (ms), the
focus flag reported by egui (app.rs 908), the X11 lookup result, the raw
Mutter GetPosition reply, and the user's panel / dialog interactions. -/
structure TickInput where
  now : Nat
  focused : Bool
  lookupResult : Option Nat
  rawQuery : Option (Int × Int)
  panelAction : Option PanelAction
  panelEdit : Option SettingsEdit
  dialogAction : Option DialogAction
deriving DecidableEq, Repr

/-- Locator stage (app.rs 841-850): while the handle is unresolved and
fewer than 10 attempts were made, run `find_own_x11_window` once and store
a successful result. -/
def locatorStage (inp : TickInput) (s : AppState) (l : TickLog) :
    AppState × TickLog :=
  if s.x11_window_id = 0 ∧ s.x11_search_attempts < 10 then
    match inp.lookupResult with
    | some id =>
      ({ s with x11_search_attempts := s.x11_search_attempts + 1,
                x11_window_id := id },
       { l with locator_ran := true })
    | none =>
      ({ s with x11_search_attempts := s.x11_search_attempts + 1 },
       { l with locator_ran := true })
  else (s, l)

/-- Position poll stage (app.rs 852-865): while visible, query Mutter when
no position is cached or more than one second has passed since the last
query; record the query time unconditionally and the result on success. -/
def pollStage (inp : TickInput) (s : AppState) (l : TickLog) :
    AppState × TickLog :=
  if s.is_visible then
    if s.last_known_pos = none ∨ 1000 < inp.now - s.last_pos_query then
      match get_mutter_window_position inp.rawQuery with
      | some p =>
        ({ s with last_pos_query := inp.now, last_known_pos := some p,
                  shared_pos := p },
         { l with poll_query := true })
      | none =>
        ({ s with last_pos_query := inp.now }, { l with poll_query := true })
    else (s, l)
  else (s, l)

/-- A toggle_visibility call inside the tick, with its event recorded in
the log; a Visible-to-Hidden toggle runs save_position, so it is logged as
a store write site. -/
def toggleLogged (q : Option Pos) (ev : ProcEvent) (s : AppState)
    (l : TickLog) : AppState × TickLog :=
  if s.is_visible then
    (hideOp q s,
     { l with processed := l.processed ++ [ev],
              store_src := l.store_src ++ [WriteSource.wHide] })
  else
    (showOp s, { l with processed := l.processed ++ [ev] })

/-- FIFO stage (app.rs 875-878): swap the toggle flag and toggle once if
it was set. -/
def pipeStage (inp : TickInput) (s : AppState) (l : TickLog) :
    AppState × TickLog :=
  if s.toggle_signal then
    toggleLogged (get_mutter_window_position inp.rawQuery)
      ProcEvent.evPipeToggle { s with toggle_signal := false } l
  else (s, l)

/-- Hotkey drain loop (app.rs 881-886): consume queued events one by one,
toggling for each event that carries the registered hotkey id. -/
def hotkeyDrain (q : Option Pos) (hid : Nat) :
    List Nat → AppState → TickLog → AppState × TickLog
  | [], s, l => (s, l)
  | e :: es, s, l =>
    if e = hid then
      let r := toggleLogged q ProcEvent.evHotkeyToggle s l
      hotkeyDrain q hid es r.1 r.2
    else hotkeyDrain q hid es s l

/-- Hotkey stage: drain the whole queue accumulated by the listener. -/
def hotkeyStage (inp : TickInput) (s : AppState) (l : TickLog) :
    AppState × TickLog :=
  hotkeyDrain (get_mutter_window_position inp.rawQuery) s.toggle_hotkey_id
    s.hotkeyQueue { s with hotkeyQueue := [] } l

/-- Tray stage (app.rs 889-905): swap the action slot and dispatch on the
code it held.  Code 2 shows the window and opens the settings panel
(cloning the live settings into the draft, settings.rs 294-301); code 3 is
the dead TRAY_QUIT arm (show then quit). -/
def trayStage (inp : TickInput) (s : AppState) (l : TickLog) :
    AppState × TickLog :=
  let a := s.tray_action
  let s := { s with tray_action := TRAY_NONE }
  if a = TRAY_TOGGLE then
    toggleLogged (get_mutter_window_position inp.rawQuery)
      ProcEvent.evTrayToggle s l
  else if a = TRAY_SETTINGS then
    let s := showOp s
    ({ s with draft := s.settings, settingsOpen := true },
     { l with processed := l.processed ++ [ProcEvent.evTraySettings] })
  else if a = TRAY_QUIT then
    (quitOp (get_mutter_window_position inp.rawQuery) (showOp s),
     { l with processed := l.processed ++ [ProcEvent.evTrayQuit],
              store_src := l.store_src ++ [WriteSource.wQuit] })
  else (s, l)

/-- Focus stage (app.rs 908-949): first-focus initial move (912-927,
external gdbus call, flag cleared), drag-end detection (931-936), the
auto-hide check gated on hide_on_inactive, visibility, panel, drag and
pending prompt (939-944), then the previous-focus update (949). -/
def focusStage (inp : TickInput) (s : AppState) (l : TickLog) :
    AppState × TickLog :=
  let focused := inp.focused
  let s1 :=
    if s.needs_initial_move ∧ focused then
      { s with needs_initial_move := false }
    else s
  let s2 :=
    if s1.dragging ∧ ¬ s1.was_focused ∧ focused then
      { s1 with dragging := false, was_focused := true }
    else s1
  if s2.settings.hide_on_inactive ∧ s2.is_visible ∧ ¬ s2.settingsOpen
      ∧ ¬ s2.dragging ∧ ¬ s2.pending_w then
    if s2.was_focused ∧ ¬ focused then
      ({ hideOp (get_mutter_window_position inp.rawQuery) s2 with
          was_focused := focused },
       { l with auto_hide_fired := true,
                store_src := l.store_src ++ [WriteSource.wHide] })
    else ({ s2 with was_focused := focused }, l)
  else ({ s2 with was_focused := focused }, l)

/-- Settings-mode branch (app.rs 952-991): ESC closes the panel; otherwise
the panel renders, applying draft edits, and a Save & Close click hands the
draft to apply_settings and closes the panel. -/
def settingsStage (inp : TickInput) (s : AppState) (l : TickLog) :
    AppState × TickLog :=
  match inp.panelAction with
  | some PanelAction.pEscape => ({ s with settingsOpen := false }, l)
  | some PanelAction.pSave =>
    let d := applyEdit inp.panelEdit s.draft
    ({ apply_settings d { s with draft := d } with settingsOpen := false },
     { l with store_src := l.store_src ++ [WriteSource.wApply] })
  | none => ({ s with draft := applyEdit inp.panelEdit s.draft }, l)

/-- Parameter-dialog branch (app.rs 994-1061): Enter with a non-empty
input executes the magic word (external) and hides; ESC clears the pending
prompt. -/
def dialogStage (inp : TickInput) (s : AppState) (l : TickLog) :
    AppState × TickLog :=
  match inp.dialogAction with
  | some DialogAction.dEnter =>
    (hideOp (get_mutter_window_position inp.rawQuery)
       { s with pending_w := false },
     { l with store_src := l.store_src ++ [WriteSource.wHide] })
  | some DialogAction.dEscape => ({ s with pending_w := false }, l)
  | none => (s, l)

/-- The unconditionally executed prefix of LauncherApp::update
(app.rs 839-949): locator, position poll, the three signal consumers, and
the focus bookkeeping, in source order. -/
def preTick (inp : TickInput) (s : AppState) : AppState × TickLog :=
  let r1 := locatorStage inp s emptyLog
  let r2 := pollStage inp r1.1 r1.2
  let r3 := pipeStage inp r2.1 r2.2
  let r4 := hotkeyStage inp r3.1 r3.2
  let r5 := trayStage inp r4.1 r4.2
  focusStage inp r5.1 r5.2

/-- One redraw tick: LauncherApp::update (app.rs 839-1061).  The settings
and dialog branches return early in the source; here they are the final
stages, and the command-bar tail is not modelled. -/
def tick (inp : TickInput) (s : AppState) : AppState × TickLog :=
  let r6 := preTick inp s
  if r6.1.settingsOpen then settingsStage inp r6.1 r6.2
  else if r6.1.pending_w then dialogStage inp r6.1 r6.2
  else r6

/-- A trace step: the arrivals delivered since the previous tick, then the
tick environment. -/
structure Step where
  arrivals : List Arrival
  inp : TickInput
deriving DecidableEq, Repr

/-- Deliver a step's arrivals into the shared cells and run one tick. -/
def runStep (s : AppState) (st : Step) : AppState × TickLog :=
  tick st.inp (applyArrivals s st.arrivals)

/-- Run a whole trace, collecting the per-tick logs. -/
def runTrace (s : AppState) : List Step → AppState × List TickLog
  | [] => (s, [])
  | st :: rest =>
    let r := runStep s st
    let r2 := runTrace r.1 rest
    (r2.1, r.2 :: r2.2)

/-- The state LauncherApp::new builds (app.rs 509-617), given the loaded
settings (also the store contents) and the registered hotkey id. -/
def initState (st : Settings) (hotkeyId : Nat) : AppState :=
  { is_visible := true
    settings := st
    store := st
    settingsOpen := false
    draft := st
    was_focused := false
    dragging := false
    pending_w := false
    x11_window_id := 0
    x11_search_attempts := 0
    toggle_hotkey_id := hotkeyId
    last_known_pos := none
    last_pos_query := 0
    shared_pos := ⟨0, 0⟩
    toggle_signal := false
    tray_action := TRAY_NONE
    hotkeyQueue := []
    needs_initial_move := st.window_x.isSome && st.window_y.isSome
    quitting := false }

/-- Outcome of `manager.register(hotkey)` as matched in LauncherApp::new
(app.rs 514-517) and re_register_hotkey (app.rs 724-729). -/
inductive RegisterOutcome
  | regOk
  | alreadyRegistered
  | regErr (msg : String)
deriving DecidableEq, Repr

/-- Hotkey-registration handling (app.rs 514-517): Ok and
AlreadyRegistered are accepted, any other error is only logged; in every
case execution continues (an `Except.error` result would model a
panic). -/
def register_hotkey_handling (r : RegisterOutcome) : Except String Unit :=
  match r with
  | RegisterOutcome.regOk => Except.ok ()
  | RegisterOutcome.alreadyRegistered => Except.ok ()
  | RegisterOutcome.regErr _ => Except.ok ()

/-- find_own_x11_window (app.rs 83-92): a protocol error from the inner
lookup is logged and degrades to "not found". -/
def find_own_x11_window (inner : Except String (Option Nat)) : Option Nat :=
  match inner with
  | Except.ok v => v
  | Except.error _ => none

/-- activate_x11_window_by_id (app.rs 138-142): an activation error is
logged and otherwise ignored; execution continues. -/
def activate_x11_window_by_id (inner : Except String Unit) :
    Except String Unit :=
  match inner with
  | Except.ok _ => Except.ok ()
  | Except.error _ => Except.ok ()

/-- Settings::save (settings.rs 188-196): a serialization failure skips
the write (`if let Ok(data)`), and the write result itself is discarded
(`let _ =`); in every case the function returns normally. -/
def settings_save (serialized : Option String)
    (writeResult : Except String Unit) : Except String Unit :=
  match serialized with
  | none => Except.ok ()
  | some _ =>
    match writeResult with
    | Except.ok _ => Except.ok ()
    | Except.error _ => Except.ok ()

/-- The write-bookkeeping contract of a tick stage: the list of logged
store-write sites only grows, and a stage that logged no write left the
store untouched. -/
def StoreContract (f : AppState → TickLog → AppState × TickLog) : Prop :=
  ∀ s l, l.store_src.length ≤ (f s l).2.store_src.length
    ∧ ((f s l).2.store_src.length = l.store_src.length →
        (f s l).1.store = s.store)

/-- Settings with auto-hide off, used by the concrete scenarios. -/
def quietSettings : Settings :=
  { hide_on_inactive := false, stay_on_top := true,
    window_x := none, window_y := none }

/-- A tick environment with no external responses and no user input. -/
def baseInput : TickInput :=
  { now := 0, focused := false, lookupResult := none, rawQuery := none,
    panelAction := none, panelEdit := none, dialogAction := none }

/-- A trace step delivering exactly one FIFO write (the shape used by the
toggle-parity scenario). -/
def pipeStep : Step := { arrivals := [Arrival.pipeWrite], inp := baseInput }

/-- Start state of the settings-save scenario: handle resolved, window
visible, a position cached. -/
def c4state : AppState :=
  { initState quietSettings 7 with
      x11_window_id := 1, last_known_pos := some ⟨4, 5⟩ }

/-- Step 1 of the settings-save scenario: the tray opens the settings
panel (the draft clones the live settings, whose position fields are still
empty). -/
def c4step1 : Step := { arrivals := [Arrival.trayEvt "settings"], inp := baseInput }

/-- Step 2: a FIFO toggle hides the window, persisting the cached
position (4, 5). -/
def c4step2 : Step := { arrivals := [Arrival.pipeWrite], inp := baseInput }

/-- Step 3: the user clicks Save and Close in the settings panel. -/
def c4step3 : Step :=
  { arrivals := [], inp := { baseInput with panelAction := some PanelAction.pSave } }

/-- Start state of the poll-throttle scenario: visible, position (7, 8)
cached by a query at time 1000 ms. -/
def c7state : AppState :=
  { initState quietSettings 7 with
      x11_window_id := 1, last_known_pos := some ⟨7, 8⟩,
      last_pos_query := 1000 }

/-- Throttle scenario, tick at 1100 ms: a FIFO toggle hides the window. -/
def c7step1 : Step :=
  { arrivals := [Arrival.pipeWrite], inp := { baseInput with now := 1100 } }

/-- Throttle scenario, tick at 1300 ms: a FIFO toggle shows the window
again (the transition to Visible). -/
def c7step2 : Step :=
  { arrivals := [Arrival.pipeWrite], inp := { baseInput with now := 1300 } }

/-- Throttle scenario, tick at 1500 ms: the first full tick in the new
Visible period. -/
def c7step3 : Step := { arrivals := [], inp := { baseInput with now := 1500 } }

/-- Settings with auto-hide enabled (the default), for the drag-suppression
scenario. -/
def c1Settings : Settings :=
  { hide_on_inactive := true, stay_on_top := true,
    window_x := none, window_y := none }

/-- A visible, drag-in-progress state that has focus and is about to lose
it. -/
def c1state : AppState :=
  { initState c1Settings 7 with dragging := true, was_focused := true }

/-- A state with position (120, 340) cached (the Scenario D numbers). -/
def c5state : AppState :=
  { initState quietSettings 7 with last_known_pos := some ⟨120, 340⟩ }

/-- A state whose shared position atomics hold (120, 340). -/
def c9state : AppState :=
  { initState quietSettings 7 with shared_pos := ⟨120, 340⟩ }

/-- A tick environment whose Mutter GetPosition reply parses to (-3, 7):
the window sits partly left of the screen origin. -/
def c10input : TickInput := { baseInput with rawQuery := some (-3, 7) }

/-! Projection lemmas for save_position: it only touches the settings
window fields, the shared position cell and the store. -/

@[simp] lemma save_position_is_visible (q : Option Pos) (s : AppState) :
    (save_position q s).1.is_visible = s.is_visible := by
  simp only [save_position]; split <;> (try split) <;> simp [writePos]

@[simp] lemma save_position_dragging (q : Option Pos) (s : AppState) :
    (save_position q s).1.dragging = s.dragging := by
  simp only [save_position]; split <;> (try split) <;> simp [writePos]

@[simp] lemma save_position_settingsOpen (q : Option Pos) (s : AppState) :
    (save_position q s).1.settingsOpen = s.settingsOpen := by
  simp only [save_position]; split <;> (try split) <;> simp [writePos]

@[simp] lemma save_position_pending_w (q : Option Pos) (s : AppState) :
    (save_position q s).1.pending_w = s.pending_w := by
  simp only [save_position]; split <;> (try split) <;> simp [writePos]

@[simp] lemma save_position_was_focused (q : Option Pos) (s : AppState) :
    (save_position q s).1.was_focused = s.was_focused := by
  simp only [save_position]; split <;> (try split) <;> simp [writePos]

@[simp] lemma save_position_x11_window_id (q : Option Pos) (s : AppState) :
    (save_position q s).1.x11_window_id = s.x11_window_id := by
  simp only [save_position]; split <;> (try split) <;> simp [writePos]

@[simp] lemma save_position_x11_search_attempts (q : Option Pos) (s : AppState) :
    (save_position q s).1.x11_search_attempts = s.x11_search_attempts := by
  simp only [save_position]; split <;> (try split) <;> simp [writePos]

@[simp] lemma save_position_toggle_hotkey_id (q : Option Pos) (s : AppState) :
    (save_position q s).1.toggle_hotkey_id = s.toggle_hotkey_id := by
  simp only [save_position]; split <;> (try split) <;> simp [writePos]

@[simp] lemma save_position_last_known_pos (q : Option Pos) (s : AppState) :
    (save_position q s).1.last_known_pos = s.last_known_pos := by
  simp only [save_position]; split <;> (try split) <;> simp [writePos]

@[simp] lemma save_position_last_pos_query (q : Option Pos) (s : AppState) :
    (save_position q s).1.last_pos_query = s.last_pos_query := by
  simp only [save_position]; split <;> (try split) <;> simp [writePos]

@[simp] lemma save_position_toggle_signal (q : Option Pos) (s : AppState) :
    (save_position q s).1.toggle_signal = s.toggle_signal := by
  simp only [save_position]; split <;> (try split) <;> simp [writePos]

@[simp] lemma save_position_tray_action (q : Option Pos) (s : AppState) :
    (save_position q s).1.tray_action = s.tray_action := by
  simp only [save_position]; split <;> (try split) <;> simp [writePos]

@[simp] lemma save_position_hotkeyQueue (q : Option Pos) (s : AppState) :
    (save_position q s).1.hotkeyQueue = s.hotkeyQueue := by
  simp only [save_position]; split <;> (try split) <;> simp [writePos]

@[simp] lemma save_position_needs_initial_move (q : Option Pos) (s : AppState) :
    (save_position q s).1.needs_initial_move = s.needs_initial_move := by
  simp only [save_position]; split <;> (try split) <;> simp [writePos]

@[simp] lemma save_position_quitting (q : Option Pos) (s : AppState) :
    (save_position q s).1.quitting = s.quitting := by
  simp only [save_position]; split <;> (try split) <;> simp [writePos]

@[simp] lemma save_position_hide_on_inactive (q : Option Pos) (s : AppState) :
    (save_position q s).1.settings.hide_on_inactive
      = s.settings.hide_on_inactive := by
  simp only [save_position]; split <;> (try split) <;> simp [writePos]

@[simp] lemma hideOp_is_visible (q : Option Pos) (s : AppState) :
    (hideOp q s).is_visible = false := by
  simp [hideOp]

@[simp] lemma showOp_is_visible (s : AppState) :
    (showOp s).is_visible = true := rfl

/-! Projection lemmas for toggleLogged. -/

@[simp] lemma toggleLogged_is_visible (q : Option Pos) (ev : ProcEvent)
    (s : AppState) (l : TickLog) :
    (toggleLogged q ev s l).1.is_visible = !s.is_visible := by
  simp only [toggleLogged]; split <;> simp_all [hideOp, showOp]

@[simp] lemma toggleLogged_dragging (q : Option Pos) (ev : ProcEvent)
    (s : AppState) (l : TickLog) :
    (toggleLogged q ev s l).1.dragging = s.dragging := by
  simp only [toggleLogged]; split <;> simp [hideOp, showOp]

@[simp] lemma toggleLogged_settingsOpen (q : Option Pos) (ev : ProcEvent)
    (s : AppState) (l : TickLog) :
    (toggleLogged q ev s l).1.settingsOpen = s.settingsOpen := by
  simp only [toggleLogged]; split <;> simp [hideOp, showOp]

@[simp] lemma toggleLogged_pending_w (q : Option Pos) (ev : ProcEvent)
    (s : AppState) (l : TickLog) :
    (toggleLogged q ev s l).1.pending_w = s.pending_w := by
  simp only [toggleLogged]; split <;> simp [hideOp, showOp]

@[simp] lemma toggleLogged_x11_window_id (q : Option Pos) (ev : ProcEvent)
    (s : AppState) (l : TickLog) :
    (toggleLogged q ev s l).1.x11_window_id = s.x11_window_id := by
  simp only [toggleLogged]; split <;> simp [hideOp, showOp]

@[simp] lemma toggleLogged_x11_search_attempts (q : Option Pos) (ev : ProcEvent)
    (s : AppState) (l : TickLog) :
    (toggleLogged q ev s l).1.x11_search_attempts = s.x11_search_attempts := by
  simp only [toggleLogged]; split <;> simp [hideOp, showOp]

@[simp] lemma toggleLogged_toggle_hotkey_id (q : Option Pos) (ev : ProcEvent)
    (s : AppState) (l : TickLog) :
    (toggleLogged q ev s l).1.toggle_hotkey_id = s.toggle_hotkey_id := by
  simp only [toggleLogged]; split <;> simp [hideOp, showOp]

@[simp] lemma toggleLogged_last_known_pos (q : Option Pos) (ev : ProcEvent)
    (s : AppState) (l : TickLog) :
    (toggleLogged q ev s l).1.last_known_pos = s.last_known_pos := by
  simp only [toggleLogged]; split <;> simp [hideOp, showOp]

@[simp] lemma toggleLogged_last_pos_query (q : Option Pos) (ev : ProcEvent)
    (s : AppState) (l : TickLog) :
    (toggleLogged q ev s l).1.last_pos_query = s.last_pos_query := by
  simp only [toggleLogged]; split <;> simp [hideOp, showOp]

@[simp] lemma toggleLogged_toggle_signal (q : Option Pos) (ev : ProcEvent)
    (s : AppState) (l : TickLog) :
    (toggleLogged q ev s l).1.toggle_signal = s.toggle_signal := by
  simp only [toggleLogged]; split <;> simp [hideOp, showOp]

@[simp] lemma toggleLogged_tray_action (q : Option Pos) (ev : ProcEvent)
    (s : AppState) (l : TickLog) :
    (toggleLogged q ev s l).1.tray_action = s.tray_action := by
  simp only [toggleLogged]; split <;> simp [hideOp, showOp]

@[simp] lemma toggleLogged_hotkeyQueue (q : Option Pos) (ev : ProcEvent)
    (s : AppState) (l : TickLog) :
    (toggleLogged q ev s l).1.hotkeyQueue = s.hotkeyQueue := by
  simp only [toggleLogged]; split <;> simp [hideOp, showOp]

@[simp] lemma toggleLogged_needs_initial_move (q : Option Pos) (ev : ProcEvent)
    (s : AppState) (l : TickLog) :
    (toggleLogged q ev s l).1.needs_initial_move = s.needs_initial_move := by
  simp only [toggleLogged]; split <;> simp [hideOp, showOp]

@[simp] lemma toggleLogged_hide_on_inactive (q : Option Pos) (ev : ProcEvent)
    (s : AppState) (l : TickLog) :
    (toggleLogged q ev s l).1.settings.hide_on_inactive
      = s.settings.hide_on_inactive := by
  simp only [toggleLogged]; split <;> simp [hideOp, showOp]

@[simp] lemma toggleLogged_locator_ran (q : Option Pos) (ev : ProcEvent)
    (s : AppState) (l : TickLog) :
    (toggleLogged q ev s l).2.locator_ran = l.locator_ran := by
  simp only [toggleLogged]; split <;> simp

@[simp] lemma toggleLogged_poll_query (q : Option Pos) (ev : ProcEvent)
    (s : AppState) (l : TickLog) :
    (toggleLogged q ev s l).2.poll_query = l.poll_query := by
  simp only [toggleLogged]; split <;> simp

@[simp] lemma toggleLogged_auto_hide_fired (q : Option Pos) (ev : ProcEvent)
    (s : AppState) (l : TickLog) :
    (toggleLogged q ev s l).2.auto_hide_fired = l.auto_hide_fired := by
  simp only [toggleLogged]; split <;> simp

@[simp] lemma toggleLogged_processed (q : Option Pos) (ev : ProcEvent)
    (s : AppState) (l : TickLog) :
    (toggleLogged q ev s l).2.processed = l.processed ++ [ev] := by
  simp only [toggleLogged]; split <;> simp

lemma toggleLogged_store (q : Option Pos) (ev : ProcEvent)
    (s : AppState) (l : TickLog) :
    l.store_src.length ≤ (toggleLogged q ev s l).2.store_src.length
    ∧ ((toggleLogged q ev s l).2.store_src.length = l.store_src.length →
        (toggleLogged q ev s l).1.store = s.store) := by
  simp only [toggleLogged]; split <;> simp [showOp]

/-! Preservation lemmas for the hotkey drain loop, by induction on the
queue. -/

lemma hotkeyDrain_pres (q : Option Pos) (hid : Nat) :
    ∀ (es : List Nat) (s : AppState) (l : TickLog),
    (hotkeyDrain q hid es s l).1.dragging = s.dragging
    ∧ (hotkeyDrain q hid es s l).1.settingsOpen = s.settingsOpen
    ∧ (hotkeyDrain q hid es s l).1.pending_w = s.pending_w
    ∧ (hotkeyDrain q hid es s l).1.x11_window_id = s.x11_window_id
    ∧ (hotkeyDrain q hid es s l).1.x11_search_attempts = s.x11_search_attempts
    ∧ (hotkeyDrain q hid es s l).1.last_known_pos = s.last_known_pos
    ∧ (hotkeyDrain q hid es s l).1.last_pos_query = s.last_pos_query
    ∧ (hotkeyDrain q hid es s l).1.toggle_signal = s.toggle_signal
    ∧ (hotkeyDrain q hid es s l).1.tray_action = s.tray_action
    ∧ (hotkeyDrain q hid es s l).1.hotkeyQueue = s.hotkeyQueue
    ∧ (hotkeyDrain q hid es s l).1.toggle_hotkey_id = s.toggle_hotkey_id
    ∧ (hotkeyDrain q hid es s l).1.settings.hide_on_inactive
        = s.settings.hide_on_inactive
    ∧ (hotkeyDrain q hid es s l).1.needs_initial_move = s.needs_initial_move
    ∧ (hotkeyDrain q hid es s l).2.locator_ran = l.locator_ran
    ∧ (hotkeyDrain q hid es s l).2.poll_query = l.poll_query
    ∧ (hotkeyDrain q hid es s l).2.auto_hide_fired = l.auto_hide_fired := by
  intro es
  induction es with
  | nil => intro s l; simp [hotkeyDrain]
  | cons e es ih =>
    intro s l
    simp only [hotkeyDrain]
    split
    · have h := ih (toggleLogged q ProcEvent.evHotkeyToggle s l).1
        (toggleLogged q ProcEvent.evHotkeyToggle s l).2
      simp_all
    · exact ih s l

lemma hotkeyDrain_store (q : Option Pos) (hid : Nat) :
    ∀ (es : List Nat) (s : AppState) (l : TickLog),
    l.store_src.length ≤ (hotkeyDrain q hid es s l).2.store_src.length
    ∧ ((hotkeyDrain q hid es s l).2.store_src.length = l.store_src.length →
        (hotkeyDrain q hid es s l).1.store = s.store) := by
  intro es
  induction es with
  | nil => intro s l; simp [hotkeyDrain]
  | cons e es ih =>
    intro s l
    simp only [hotkeyDrain]
    split
    · have h1 := toggleLogged_store q ProcEvent.evHotkeyToggle s l
      have h2 := ih (toggleLogged q ProcEvent.evHotkeyToggle s l).1
        (toggleLogged q ProcEvent.evHotkeyToggle s l).2
      refine ⟨le_trans h1.1 h2.1, fun hlen => ?_⟩
      have hmid : (toggleLogged q ProcEvent.evHotkeyToggle s l).2.store_src.length
          = l.store_src.length := le_antisymm (hlen ▸ h2.1) h1.1
      rw [h2.2 (by omega), h1.2 hmid]
    · exact ih s l

lemma hotkeyDrain_counts (q : Option Pos) (hid : Nat) :
    ∀ (es : List Nat) (s : AppState) (l : TickLog),
    (hotkeyDrain q hid es s l).2.processed.count ProcEvent.evPipeToggle
      = l.processed.count ProcEvent.evPipeToggle
    ∧ (hotkeyDrain q hid es s l).2.processed.count ProcEvent.evHotkeyToggle
      = l.processed.count ProcEvent.evHotkeyToggle + es.count hid := by
  intro es
  induction es with
  | nil => intro s l; simp [hotkeyDrain]
  | cons e es ih =>
    intro s l
    simp only [hotkeyDrain]
    split
    · have h := ih (toggleLogged q ProcEvent.evHotkeyToggle s l).1
        (toggleLogged q ProcEvent.evHotkeyToggle s l).2
      rename_i heq
      simp_all [List.count_cons, List.count_append]
      omega
    · have h := ih s l
      rename_i hne
      simp_all [List.count_cons]

/-! Per-stage preservation lemmas. -/

@[simp] lemma locatorStage_pres (inp : TickInput) (s : AppState) (l : TickLog) :
    (locatorStage inp s l).1.is_visible = s.is_visible
    ∧ (locatorStage inp s l).1.dragging = s.dragging
    ∧ (locatorStage inp s l).1.settingsOpen = s.settingsOpen
    ∧ (locatorStage inp s l).1.pending_w = s.pending_w
    ∧ (locatorStage inp s l).1.last_known_pos = s.last_known_pos
    ∧ (locatorStage inp s l).1.last_pos_query = s.last_pos_query
    ∧ (locatorStage inp s l).1.toggle_signal = s.toggle_signal
    ∧ (locatorStage inp s l).1.tray_action = s.tray_action
    ∧ (locatorStage inp s l).1.hotkeyQueue = s.hotkeyQueue
    ∧ (locatorStage inp s l).1.toggle_hotkey_id = s.toggle_hotkey_id
    ∧ (locatorStage inp s l).1.settings = s.settings
    ∧ (locatorStage inp s l).1.needs_initial_move = s.needs_initial_move
    ∧ (locatorStage inp s l).1.store = s.store
    ∧ (locatorStage inp s l).2.store_src = l.store_src
    ∧ (locatorStage inp s l).2.poll_query = l.poll_query
    ∧ (locatorStage inp s l).2.auto_hide_fired = l.auto_hide_fired
    ∧ (locatorStage inp s l).2.processed = l.processed := by
  simp only [locatorStage]; split <;> (try split) <;> simp

lemma locatorStage_resolved (inp : TickInput) (s : AppState) (l : TickLog)
    (h : s.x11_window_id ≠ 0) : locatorStage inp s l = (s, l) := by
  simp [locatorStage, h]

lemma locatorStage_attempts (inp : TickInput) (s : AppState) (l : TickLog)
    (h : l.locator_ran = false) :
    ((locatorStage inp s l).2.locator_ran = true →
      s.x11_search_attempts < 10
      ∧ (locatorStage inp s l).1.x11_search_attempts
          = s.x11_search_attempts + 1)
    ∧ ((locatorStage inp s l).2.locator_ran = false →
        (locatorStage inp s l).1.x11_search_attempts
          = s.x11_search_attempts) := by
  simp only [locatorStage]; split <;> (try split) <;> simp_all

@[simp] lemma pollStage_pres (inp : TickInput) (s : AppState) (l : TickLog) :
    (pollStage inp s l).1.is_visible = s.is_visible
    ∧ (pollStage inp s l).1.dragging = s.dragging
    ∧ (pollStage inp s l).1.settingsOpen = s.settingsOpen
    ∧ (pollStage inp s l).1.pending_w = s.pending_w
    ∧ (pollStage inp s l).1.x11_window_id = s.x11_window_id
    ∧ (pollStage inp s l).1.x11_search_attempts = s.x11_search_attempts
    ∧ (pollStage inp s l).1.toggle_signal = s.toggle_signal
    ∧ (pollStage inp s l).1.tray_action = s.tray_action
    ∧ (pollStage inp s l).1.hotkeyQueue = s.hotkeyQueue
    ∧ (pollStage inp s l).1.toggle_hotkey_id = s.toggle_hotkey_id
    ∧ (pollStage inp s l).1.settings = s.settings
    ∧ (pollStage inp s l).1.needs_initial_move = s.needs_initial_move
    ∧ (pollStage inp s l).1.store = s.store
    ∧ (pollStage inp s l).2.store_src = l.store_src
    ∧ (pollStage inp s l).2.locator_ran = l.locator_ran
    ∧ (pollStage inp s l).2.auto_hide_fired = l.auto_hide_fired
    ∧ (pollStage inp s l).2.processed = l.processed := by
  simp only [pollStage]; split <;> (try split) <;> (try split) <;> simp

lemma pollStage_query_iff (inp : TickInput) (s : AppState) (l : TickLog)
    (h : l.poll_query = false) :
    (pollStage inp s l).2.poll_query = true ↔
      s.is_visible = true
      ∧ (s.last_known_pos = none ∨ 1000 < inp.now - s.last_pos_query) := by
  simp only [pollStage]; split <;> (try split) <;> (try split) <;> simp_all

lemma pollStage_lkp (inp : TickInput) (s : AppState) (l : TickLog)
    (h : get_mutter_window_position inp.rawQuery = none) :
    (pollStage inp s l).1.last_known_pos = s.last_known_pos := by
  simp only [pollStage]; split <;> (try split) <;> (try split) <;> simp_all

@[simp] lemma pipeStage_pres (inp : TickInput) (s : AppState) (l : TickLog) :
    (pipeStage inp s l).1.dragging = s.dragging
    ∧ (pipeStage inp s l).1.settingsOpen = s.settingsOpen
    ∧ (pipeStage inp s l).1.pending_w = s.pending_w
    ∧ (pipeStage inp s l).1.x11_window_id = s.x11_window_id
    ∧ (pipeStage inp s l).1.x11_search_attempts = s.x11_search_attempts
    ∧ (pipeStage inp s l).1.last_known_pos = s.last_known_pos
    ∧ (pipeStage inp s l).1.last_pos_query = s.last_pos_query
    ∧ (pipeStage inp s l).1.tray_action = s.tray_action
    ∧ (pipeStage inp s l).1.hotkeyQueue = s.hotkeyQueue
    ∧ (pipeStage inp s l).1.toggle_hotkey_id = s.toggle_hotkey_id
    ∧ (pipeStage inp s l).1.settings.hide_on_inactive
        = s.settings.hide_on_inactive
    ∧ (pipeStage inp s l).1.needs_initial_move = s.needs_initial_move
    ∧ (pipeStage inp s l).2.locator_ran = l.locator_ran
    ∧ (pipeStage inp s l).2.poll_query = l.poll_query
    ∧ (pipeStage inp s l).2.auto_hide_fired = l.auto_hide_fired := by
  simp only [pipeStage]; split <;> simp

lemma pipeStage_off (inp : TickInput) (s : AppState) (l : TickLog)
    (h : s.toggle_signal = false) : pipeStage inp s l = (s, l) := by
  simp [pipeStage, h]

lemma pipeStage_store (inp : TickInput) (s : AppState) (l : TickLog) :
    l.store_src.length ≤ (pipeStage inp s l).2.store_src.length
    ∧ ((pipeStage inp s l).2.store_src.length = l.store_src.length →
        (pipeStage inp s l).1.store = s.store) := by
  simp only [pipeStage]; split
  · exact toggleLogged_store _ _ _ _
  · simp

@[simp] lemma pipeStage_counts (inp : TickInput) (s : AppState) (l : TickLog) :
    (pipeStage inp s l).2.processed.count ProcEvent.evPipeToggle
      = l.processed.count ProcEvent.evPipeToggle
        + (if s.toggle_signal then 1 else 0)
    ∧ (pipeStage inp s l).2.processed.count ProcEvent.evHotkeyToggle
      = l.processed.count ProcEvent.evHotkeyToggle := by
  simp only [pipeStage]; split <;> simp_all [List.count_append]

@[simp] lemma hotkeyStage_pres (inp : TickInput) (s : AppState) (l : TickLog) :
    (hotkeyStage inp s l).1.dragging = s.dragging
    ∧ (hotkeyStage inp s l).1.settingsOpen = s.settingsOpen
    ∧ (hotkeyStage inp s l).1.pending_w = s.pending_w
    ∧ (hotkeyStage inp s l).1.x11_window_id = s.x11_window_id
    ∧ (hotkeyStage inp s l).1.x11_search_attempts = s.x11_search_attempts
    ∧ (hotkeyStage inp s l).1.last_known_pos = s.last_known_pos
    ∧ (hotkeyStage inp s l).1.last_pos_query = s.last_pos_query
    ∧ (hotkeyStage inp s l).1.toggle_signal = s.toggle_signal
    ∧ (hotkeyStage inp s l).1.tray_action = s.tray_action
    ∧ (hotkeyStage inp s l).1.hotkeyQueue = []
    ∧ (hotkeyStage inp s l).1.toggle_hotkey_id = s.toggle_hotkey_id
    ∧ (hotkeyStage inp s l).1.settings.hide_on_inactive
        = s.settings.hide_on_inactive
    ∧ (hotkeyStage inp s l).1.needs_initial_move = s.needs_initial_move
    ∧ (hotkeyStage inp s l).2.locator_ran = l.locator_ran
    ∧ (hotkeyStage inp s l).2.poll_query = l.poll_query
    ∧ (hotkeyStage inp s l).2.auto_hide_fired = l.auto_hide_fired := by
  have h := hotkeyDrain_pres (get_mutter_window_position inp.rawQuery)
    s.toggle_hotkey_id s.hotkeyQueue { s with hotkeyQueue := [] } l
  simp only [hotkeyStage]
  simp_all

lemma hotkeyStage_empty (inp : TickInput) (s : AppState) (l : TickLog)
    (h : s.hotkeyQueue = []) :
    hotkeyStage inp s l = ({ s with hotkeyQueue := [] }, l) := by
  simp [hotkeyStage, h, hotkeyDrain]

lemma hotkeyStage_store (inp : TickInput) (s : AppState) (l : TickLog) :
    l.store_src.length ≤ (hotkeyStage inp s l).2.store_src.length
    ∧ ((hotkeyStage inp s l).2.store_src.length = l.store_src.length →
        (hotkeyStage inp s l).1.store = s.store) := by
  have h := hotkeyDrain_store (get_mutter_window_position inp.rawQuery)
    s.toggle_hotkey_id s.hotkeyQueue { s with hotkeyQueue := [] } l
  simp only [hotkeyStage]
  simp_all

@[simp] lemma hotkeyStage_counts (inp : TickInput) (s : AppState) (l : TickLog) :
    (hotkeyStage inp s l).2.processed.count ProcEvent.evPipeToggle
      = l.processed.count ProcEvent.evPipeToggle
    ∧ (hotkeyStage inp s l).2.processed.count ProcEvent.evHotkeyToggle
      = l.processed.count ProcEvent.evHotkeyToggle
        + s.hotkeyQueue.count s.toggle_hotkey_id := by
  have h := hotkeyDrain_counts (get_mutter_window_position inp.rawQuery)
    s.toggle_hotkey_id s.hotkeyQueue { s with hotkeyQueue := [] } l
  simp only [hotkeyStage]
  simp_all

@[simp] lemma trayStage_pres (inp : TickInput) (s : AppState) (l : TickLog) :
    (trayStage inp s l).1.dragging = s.dragging
    ∧ (trayStage inp s l).1.pending_w = s.pending_w
    ∧ (trayStage inp s l).1.x11_window_id = s.x11_window_id
    ∧ (trayStage inp s l).1.x11_search_attempts = s.x11_search_attempts
    ∧ (trayStage inp s l).1.last_known_pos = s.last_known_pos
    ∧ (trayStage inp s l).1.last_pos_query = s.last_pos_query
    ∧ (trayStage inp s l).1.toggle_signal = s.toggle_signal
    ∧ (trayStage inp s l).1.tray_action = TRAY_NONE
    ∧ (trayStage inp s l).1.hotkeyQueue = s.hotkeyQueue
    ∧ (trayStage inp s l).1.toggle_hotkey_id = s.toggle_hotkey_id
    ∧ (trayStage inp s l).1.settings.hide_on_inactive
        = s.settings.hide_on_inactive
    ∧ (trayStage inp s l).1.needs_initial_move = s.needs_initial_move
    ∧ (trayStage inp s l).2.locator_ran = l.locator_ran
    ∧ (trayStage inp s l).2.poll_query = l.poll_query
    ∧ (trayStage inp s l).2.auto_hide_fired = l.auto_hide_fired
    ∧ (trayStage inp s l).1.settingsOpen
        = (s.settingsOpen || decide (s.tray_action = TRAY_SETTINGS)) := by
  simp only [trayStage]
  split <;> (try split) <;> (try split) <;>
    simp_all [showOp, quitOp, TRAY_NONE, TRAY_TOGGLE, TRAY_SETTINGS, TRAY_QUIT]

lemma trayStage_idle (inp : TickInput) (s : AppState) (l : TickLog)
    (h : s.tray_action = TRAY_NONE) :
    trayStage inp s l = ({ s with tray_action := TRAY_NONE }, l) := by
  simp [trayStage, h, TRAY_NONE, TRAY_TOGGLE, TRAY_SETTINGS, TRAY_QUIT]

lemma trayStage_store (inp : TickInput) (s : AppState) (l : TickLog) :
    l.store_src.length ≤ (trayStage inp s l).2.store_src.length
    ∧ ((trayStage inp s l).2.store_src.length = l.store_src.length →
        (trayStage inp s l).1.store = s.store) := by
  simp only [trayStage]
  split
  · exact toggleLogged_store _ _ _ _
  · split
    · simp [showOp]
    · split <;> simp [showOp, quitOp]

@[simp] lemma trayStage_count_pipe (inp : TickInput) (s : AppState) (l : TickLog) :
    (trayStage inp s l).2.processed.count ProcEvent.evPipeToggle
      = l.processed.count ProcEvent.evPipeToggle
    ∧ (trayStage inp s l).2.processed.count ProcEvent.evHotkeyToggle
      = l.processed.count ProcEvent.evHotkeyToggle := by
  simp only [trayStage]
  split <;> (try split) <;> (try split) <;> simp [List.count_append]

@[simp] lemma focusStage_pres (inp : TickInput) (s : AppState) (l : TickLog) :
    (focusStage inp s l).1.settingsOpen = s.settingsOpen
    ∧ (focusStage inp s l).1.pending_w = s.pending_w
    ∧ (focusStage inp s l).1.x11_window_id = s.x11_window_id
    ∧ (focusStage inp s l).1.x11_search_attempts = s.x11_search_attempts
    ∧ (focusStage inp s l).1.last_known_pos = s.last_known_pos
    ∧ (focusStage inp s l).1.last_pos_query = s.last_pos_query
    ∧ (focusStage inp s l).1.toggle_signal = s.toggle_signal
    ∧ (focusStage inp s l).1.tray_action = s.tray_action
    ∧ (focusStage inp s l).1.hotkeyQueue = s.hotkeyQueue
    ∧ (focusStage inp s l).1.toggle_hotkey_id = s.toggle_hotkey_id
    ∧ (focusStage inp s l).1.settings.hide_on_inactive
        = s.settings.hide_on_inactive
    ∧ (focusStage inp s l).2.locator_ran = l.locator_ran
    ∧ (focusStage inp s l).2.poll_query = l.poll_query
    ∧ (focusStage inp s l).2.processed = l.processed := by
  simp only [focusStage]
  split <;> split <;> split <;> (try split) <;> simp_all [hideOp]

lemma focusStage_quiet (inp : TickInput) (s : AppState) (l : TickLog)
    (h : s.dragging = true ∨ s.settingsOpen = true ∨ s.pending_w = true
      ∨ s.settings.hide_on_inactive = false) :
    (focusStage inp s l).2.auto_hide_fired = l.auto_hide_fired
    ∧ (focusStage inp s l).1.is_visible = s.is_visible
    ∧ (focusStage inp s l).1.store = s.store
    ∧ (focusStage inp s l).2.store_src = l.store_src := by
  simp only [focusStage]
  split <;> split <;> split <;> (try split) <;> simp_all [hideOp]

lemma focusStage_store (inp : TickInput) (s : AppState) (l : TickLog) :
    l.store_src.length ≤ (focusStage inp s l).2.store_src.length
    ∧ ((focusStage inp s l).2.store_src.length = l.store_src.length →
        (focusStage inp s l).1.store = s.store) := by
  simp only [focusStage]
  split <;> split <;> split <;> (try split) <;> simp_all [hideOp]

@[simp] lemma settingsStage_pres (inp : TickInput) (s : AppState) (l : TickLog) :
    (settingsStage inp s l).1.is_visible = s.is_visible
    ∧ (settingsStage inp s l).1.dragging = s.dragging
    ∧ (settingsStage inp s l).1.pending_w = s.pending_w
    ∧ (settingsStage inp s l).1.x11_window_id = s.x11_window_id
    ∧ (settingsStage inp s l).1.x11_search_attempts = s.x11_search_attempts
    ∧ (settingsStage inp s l).1.last_known_pos = s.last_known_pos
    ∧ (settingsStage inp s l).1.last_pos_query = s.last_pos_query
    ∧ (settingsStage inp s l).1.toggle_signal = s.toggle_signal
    ∧ (settingsStage inp s l).1.tray_action = s.tray_action
    ∧ (settingsStage inp s l).1.hotkeyQueue = s.hotkeyQueue
    ∧ (settingsStage inp s l).1.toggle_hotkey_id = s.toggle_hotkey_id
    ∧ (settingsStage inp s l).1.needs_initial_move = s.needs_initial_move
    ∧ (settingsStage inp s l).2.locator_ran = l.locator_ran
    ∧ (settingsStage inp s l).2.poll_query = l.poll_query
    ∧ (settingsStage inp s l).2.auto_hide_fired = l.auto_hide_fired
    ∧ (settingsStage inp s l).2.processed = l.processed := by
  simp only [settingsStage]
  split <;> simp [apply_settings]

lemma settingsStage_none (inp : TickInput) (s : AppState) (l : TickLog)
    (h : inp.panelAction = none) :
    settingsStage inp s l
      = ({ s with draft := applyEdit inp.panelEdit s.draft }, l) := by
  simp [settingsStage, h]

lemma settingsStage_store (inp : TickInput) (s : AppState) (l : TickLog) :
    l.store_src.length ≤ (settingsStage inp s l).2.store_src.length
    ∧ ((settingsStage inp s l).2.store_src.length = l.store_src.length →
        (settingsStage inp s l).1.store = s.store) := by
  simp only [settingsStage]
  split <;> simp [apply_settings]

@[simp] lemma dialogStage_pres (inp : TickInput) (s : AppState) (l : TickLog) :
    (dialogStage inp s l).1.dragging = s.dragging
    ∧ (dialogStage inp s l).1.settingsOpen = s.settingsOpen
    ∧ (dialogStage inp s l).1.x11_window_id = s.x11_window_id
    ∧ (dialogStage inp s l).1.x11_search_attempts = s.x11_search_attempts
    ∧ (dialogStage inp s l).1.last_known_pos = s.last_known_pos
    ∧ (dialogStage inp s l).1.last_pos_query = s.last_pos_query
    ∧ (dialogStage inp s l).1.toggle_signal = s.toggle_signal
    ∧ (dialogStage inp s l).1.tray_action = s.tray_action
    ∧ (dialogStage inp s l).1.hotkeyQueue = s.hotkeyQueue
    ∧ (dialogStage inp s l).1.toggle_hotkey_id = s.toggle_hotkey_id
    ∧ (dialogStage inp s l).1.settings.hide_on_inactive
        = s.settings.hide_on_inactive
    ∧ (dialogStage inp s l).1.needs_initial_move = s.needs_initial_move
    ∧ (dialogStage inp s l).2.locator_ran = l.locator_ran
    ∧ (dialogStage inp s l).2.poll_query = l.poll_query
    ∧ (dialogStage inp s l).2.auto_hide_fired = l.auto_hide_fired
    ∧ (dialogStage inp s l).2.processed = l.processed := by
  simp only [dialogStage]
  split <;> simp [hideOp]

lemma dialogStage_none (inp : TickInput) (s : AppState) (l : TickLog)
    (h : inp.dialogAction = none) : dialogStage inp s l = (s, l) := by
  simp [dialogStage, h]

lemma dialogStage_store (inp : TickInput) (s : AppState) (l : TickLog) :
    l.store_src.length ≤ (dialogStage inp s l).2.store_src.length
    ∧ ((dialogStage inp s l).2.store_src.length = l.store_src.length →
        (dialogStage inp s l).1.store = s.store) := by
  simp only [dialogStage]
  split <;> simp

/-! Composition lemmas for preTick and tick. -/

lemma preTick_fired (inp : TickInput) (s : AppState)
    (h : s.dragging = true ∨ s.settingsOpen = true ∨ s.pending_w = true
      ∨ s.settings.hide_on_inactive = false) :
    (preTick inp s).2.auto_hide_fired = false := by
  simp only [preTick]
  refine Eq.trans ((focusStage_quiet inp _ _ ?_).1) ?_
  · simp
    tauto
  · simp [emptyLog]

lemma tick_fired (inp : TickInput) (s : AppState)
    (h : s.dragging = true ∨ s.settingsOpen = true ∨ s.pending_w = true
      ∨ s.settings.hide_on_inactive = false) :
    (tick inp s).2.auto_hide_fired = false := by
  have hf := preTick_fired inp s h
  simp only [tick]
  split
  · simp [hf]
  · split
    · simp [hf]
    · exact hf

lemma preTick_vis (inp : TickInput) (s : AppState)
    (h : s.dragging = true ∨ s.settingsOpen = true ∨ s.pending_w = true
      ∨ s.settings.hide_on_inactive = false)
    (hf : s.toggle_signal = false) (ht : s.tray_action = TRAY_NONE)
    (hq : s.hotkeyQueue = []) :
    (preTick inp s).1.is_visible = s.is_visible := by
  simp only [preTick]
  refine Eq.trans ((focusStage_quiet inp _ _ ?_).2.1) ?_
  · simp
    tauto
  · rw [trayStage_idle _ _ _ (by simp [ht, TRAY_NONE])]
    rw [hotkeyStage_empty _ _ _ (by simp [hq])]
    rw [pipeStage_off _ _ _ (by simp [hf])]
    simp

lemma pipeStage_on (inp : TickInput) (s : AppState) (l : TickLog)
    (h : s.toggle_signal = true) :
    pipeStage inp s l
      = toggleLogged (get_mutter_window_position inp.rawQuery)
          ProcEvent.evPipeToggle { s with toggle_signal := false } l := by
  simp [pipeStage, h]

lemma preTick_flip (inp : TickInput) (s : AppState)
    (hhoi : s.settings.hide_on_inactive = false) (ht : s.tray_action = TRAY_NONE)
    (hq : s.hotkeyQueue = []) (hf : s.toggle_signal = true) :
    (preTick inp s).1.is_visible = !s.is_visible := by
  simp only [preTick]
  refine Eq.trans ((focusStage_quiet inp _ _ ?_).2.1) ?_
  · simp
    tauto
  · rw [trayStage_idle _ _ _ (by simp [ht, TRAY_NONE])]
    rw [hotkeyStage_empty _ _ _ (by simp [hq])]
    rw [pipeStage_on _ _ _ (by simp [hf])]
    simp

lemma tick_flip (inp : TickInput) (s : AppState)
    (hhoi : s.settings.hide_on_inactive = false) (ht : s.tray_action = TRAY_NONE)
    (hq : s.hotkeyQueue = []) (hf : s.toggle_signal = true)
    (hd : inp.dialogAction = none) (hp : inp.panelAction = none) :
    (tick inp s).1.is_visible = !s.is_visible
    ∧ (tick inp s).1.settings.hide_on_inactive = false
    ∧ (tick inp s).1.tray_action = TRAY_NONE
    ∧ (tick inp s).1.hotkeyQueue = [] := by
  have hvis := preTick_flip inp s hhoi ht hq hf
  have hh2 : (preTick inp s).1.settings.hide_on_inactive = false := by
    simp [preTick, hhoi]
  have ht2 : (preTick inp s).1.tray_action = TRAY_NONE := by
    simp [preTick]
  have hq2 : (preTick inp s).1.hotkeyQueue = [] := by
    simp [preTick]
  simp only [tick]
  split
  · rw [settingsStage_none _ _ _ hp]
    exact ⟨hvis, hh2, ht2, hq2⟩
  · split
    · rw [dialogStage_none _ _ _ hd]
      exact ⟨hvis, hh2, ht2, hq2⟩
    · exact ⟨hvis, hh2, ht2, hq2⟩

lemma c2_aux : ∀ (N : Nat) (s : AppState),
    s.settings.hide_on_inactive = false → s.tray_action = TRAY_NONE →
    s.hotkeyQueue = [] →
    (runTrace s (List.replicate N pipeStep)).1.is_visible
      = (if N % 2 = 0 then s.is_visible else !s.is_visible) := by
  intro N
  induction N with
  | zero => intro s h1 h2 h3; simp [runTrace]
  | succ n ih =>
    intro s h1 h2 h3
    have hstep := tick_flip baseInput { s with toggle_signal := true }
      (by simp [h1]) (by simp [h2]) (by simp [h3]) rfl rfl rfl
    have hrec := ih (runStep s pipeStep).1 hstep.2.1 hstep.2.2.1 hstep.2.2.2
    rw [List.replicate_succ]
    show (runTrace (runStep s pipeStep).1 (List.replicate n pipeStep)).1.is_visible
      = _
    rw [hrec, show (runStep s pipeStep).1.is_visible = !s.is_visible from hstep.1]
    rcases Nat.mod_two_eq_zero_or_one n with hpar | hpar
    · have hs : (n + 1) % 2 = 1 := by omega
      simp [hpar, hs]
    · have hs : (n + 1) % 2 = 0 := by omega
      simp [hpar, hs]

lemma tick_vis (inp : TickInput) (s : AppState)
    (h : s.dragging = true ∨ s.settingsOpen = true ∨ s.pending_w = true
      ∨ s.settings.hide_on_inactive = false)
    (hf : s.toggle_signal = false) (ht : s.tray_action = TRAY_NONE)
    (hq : s.hotkeyQueue = []) (hd : inp.dialogAction = none) :
    (tick inp s).1.is_visible = s.is_visible := by
  have hv := preTick_vis inp s h hf ht hq
  simp only [tick]
  split
  · simp [hv]
  · split
    · rw [dialogStage_none _ _ _ hd]
      exact hv
    · exact hv

lemma tick_transfer (inp : TickInput) (s : AppState) :
    (tick inp s).2.locator_ran = (preTick inp s).2.locator_ran
    ∧ (tick inp s).1.x11_search_attempts = (preTick inp s).1.x11_search_attempts
    ∧ (tick inp s).1.x11_window_id = (preTick inp s).1.x11_window_id
    ∧ (tick inp s).2.poll_query = (preTick inp s).2.poll_query
    ∧ (tick inp s).1.last_known_pos = (preTick inp s).1.last_known_pos
    ∧ (tick inp s).2.processed = (preTick inp s).2.processed := by
  simp only [tick]
  split
  · simp
  · split <;> simp

lemma tick_locator (inp : TickInput) (s : AppState) :
    ((tick inp s).2.locator_ran = true →
      s.x11_search_attempts < 10
      ∧ (tick inp s).1.x11_search_attempts = s.x11_search_attempts + 1)
    ∧ ((tick inp s).2.locator_ran = false →
      (tick inp s).1.x11_search_attempts = s.x11_search_attempts)
    ∧ (s.x11_window_id ≠ 0 →
      (tick inp s).1.x11_window_id = s.x11_window_id
      ∧ (tick inp s).2.locator_ran = false) := by
  obtain ⟨htr, hta, hti, -, -, -⟩ := tick_transfer inp s
  have hpr : (preTick inp s).2.locator_ran
      = (locatorStage inp s emptyLog).2.locator_ran := by simp [preTick]
  have hpa : (preTick inp s).1.x11_search_attempts
      = (locatorStage inp s emptyLog).1.x11_search_attempts := by simp [preTick]
  have hpi : (preTick inp s).1.x11_window_id
      = (locatorStage inp s emptyLog).1.x11_window_id := by simp [preTick]
  have hloc := locatorStage_attempts inp s emptyLog rfl
  refine ⟨?_, ?_, ?_⟩
  · intro h
    have h2 := hloc.1 (by rw [← hpr, ← htr]; exact h)
    exact ⟨h2.1, by rw [hta, hpa, h2.2]⟩
  · intro h
    have h2 := hloc.2 (by rw [← hpr, ← htr]; exact h)
    rw [hta, hpa, h2]
  · intro h
    refine ⟨?_, ?_⟩
    · rw [hti, hpi, locatorStage_resolved inp s emptyLog h]
    · rw [htr, hpr, locatorStage_resolved inp s emptyLog h]
      rfl

lemma applyArrival_locator (s : AppState) (a : Arrival) :
    (applyArrival s a).x11_window_id = s.x11_window_id
    ∧ (applyArrival s a).x11_search_attempts = s.x11_search_attempts := by
  cases a with
  | pipeWrite => simp [applyArrival]
  | trayEvt id =>
    simp only [applyArrival]
    split
    · simp only [trayQuitHandler]
      split <;> simp
    · simp
  | hotkeyEvt i => simp [applyArrival]

lemma applyArrivals_locator :
    ∀ (arr : List Arrival) (s : AppState),
    (applyArrivals s arr).x11_window_id = s.x11_window_id
    ∧ (applyArrivals s arr).x11_search_attempts = s.x11_search_attempts := by
  intro arr
  induction arr with
  | nil => intro s; exact ⟨rfl, rfl⟩
  | cons a rest ih =>
    intro s
    have h1 := applyArrival_locator s a
    have h2 := ih (applyArrival s a)
    exact ⟨h2.1.trans h1.1, h2.2.trans h1.2⟩

lemma runTrace_locator_count :
    ∀ (steps : List Step) (s : AppState), s.x11_search_attempts ≤ 10 →
    ((runTrace s steps).2.countP (fun l => l.locator_ran))
      ≤ 10 - s.x11_search_attempts := by
  intro steps
  induction steps with
  | nil => intro s h; simp [runTrace]
  | cons st steps ih =>
    intro s h
    simp only [runTrace, runStep]
    rw [List.countP_cons]
    have harr := applyArrivals_locator st.arrivals s
    have hloc := tick_locator st.inp (applyArrivals s st.arrivals)
    by_cases hran :
        (tick st.inp (applyArrivals s st.arrivals)).2.locator_ran = true
    · have h2 := hloc.1 hran
      have hnew : (tick st.inp (applyArrivals s st.arrivals)).1.x11_search_attempts
          = s.x11_search_attempts + 1 := by rw [h2.2, harr.2]
      have hlt : s.x11_search_attempts < 10 := by
        rw [← harr.2]
        exact h2.1
      have hrec := ih (tick st.inp (applyArrivals s st.arrivals)).1
        (by rw [hnew]; omega)
      rw [hnew] at hrec
      simp only [hran, if_true]
      omega
    · have hran2 : (tick st.inp (applyArrivals s st.arrivals)).2.locator_ran
          = false := by
        cases hb : (tick st.inp (applyArrivals s st.arrivals)).2.locator_ran
        · rfl
        · exact absurd hb hran
      have h2 := hloc.2.1 hran2
      have hnew : (tick st.inp (applyArrivals s st.arrivals)).1.x11_search_attempts
          = s.x11_search_attempts := by rw [h2, harr.2]
      have hrec := ih (tick st.inp (applyArrivals s st.arrivals)).1
        (by rw [hnew]; exact h)
      rw [hnew] at hrec
      simp [hran2]
      omega

lemma tick_poll (inp : TickInput) (s : AppState) :
    (tick inp s).2.poll_query = true ↔
      s.is_visible = true
      ∧ (s.last_known_pos = none ∨ 1000 < inp.now - s.last_pos_query) := by
  obtain ⟨-, -, -, hpq, -, -⟩ := tick_transfer inp s
  rw [hpq]
  have h2 : (preTick inp s).2.poll_query
      = (pollStage inp (locatorStage inp s emptyLog).1
          (locatorStage inp s emptyLog).2).2.poll_query := by
    simp [preTick]
  rw [h2]
  rw [pollStage_query_iff inp _ _ (by simp [emptyLog])]
  simp

lemma tick_lkp (inp : TickInput) (s : AppState)
    (h : get_mutter_window_position inp.rawQuery = none) :
    (tick inp s).1.last_known_pos = s.last_known_pos := by
  obtain ⟨-, -, -, -, hlkp, -⟩ := tick_transfer inp s
  rw [hlkp]
  simp only [preTick]
  simp
  rw [pollStage_lkp _ _ _ h]
  simp

lemma storeContract_comp {f g : AppState → TickLog → AppState × TickLog}
    (hf : StoreContract f) (hg : StoreContract g) :
    StoreContract (fun s l => g (f s l).1 (f s l).2) := by
  intro s l
  obtain ⟨hf1, hf2⟩ := hf s l
  obtain ⟨hg1, hg2⟩ := hg (f s l).1 (f s l).2
  refine ⟨le_trans hf1 hg1, fun h => ?_⟩
  have hh : (g (f s l).1 (f s l).2).2.store_src.length
      = l.store_src.length := h
  have hmid : (f s l).2.store_src.length = l.store_src.length :=
    le_antisymm (by rw [← hh]; exact hg1) hf1
  show (g (f s l).1 (f s l).2).1.store = s.store
  rw [hg2 (by omega), hf2 hmid]

lemma preTick_store (inp : TickInput) (s : AppState)
    (h : (preTick inp s).2.store_src.length = 0) :
    (preTick inp s).1.store = s.store := by
  have c1 : StoreContract (locatorStage inp) := by
    intro s l
    constructor
    · simp
    · intro _
      simp
  have cp : StoreContract (pollStage inp) := by
    intro s l
    constructor
    · simp
    · intro _
      simp
  have c2 := storeContract_comp c1 cp
  have c3 := storeContract_comp c2 (pipeStage_store inp)
  have c4 := storeContract_comp c3 (hotkeyStage_store inp)
  have c5 := storeContract_comp c4 (trayStage_store inp)
  have c6 := storeContract_comp c5 (focusStage_store inp)
  exact (c6 s emptyLog).2 h

lemma tick_store (inp : TickInput) (s : AppState)
    (h : (tick inp s).2.store_src = []) :
    (tick inp s).1.store = s.store := by
  by_cases hso : (preTick inp s).1.settingsOpen
  · have ht : tick inp s
        = settingsStage inp (preTick inp s).1 (preTick inp s).2 := by
      simp [tick, hso]
    rw [ht] at h ⊢
    have c := settingsStage_store inp (preTick inp s).1 (preTick inp s).2
    have hlen : (settingsStage inp (preTick inp s).1
        (preTick inp s).2).2.store_src.length = 0 := by rw [h]; rfl
    have hp : (preTick inp s).2.store_src.length = 0 := by omega
    rw [c.2 (by omega)]
    exact preTick_store inp s hp
  · by_cases hpw : (preTick inp s).1.pending_w
    · have ht : tick inp s
          = dialogStage inp (preTick inp s).1 (preTick inp s).2 := by
        simp [tick, hso, hpw]
      rw [ht] at h ⊢
      have c := dialogStage_store inp (preTick inp s).1 (preTick inp s).2
      have hlen : (dialogStage inp (preTick inp s).1
          (preTick inp s).2).2.store_src.length = 0 := by rw [h]; rfl
      have hp : (preTick inp s).2.store_src.length = 0 := by omega
      rw [c.2 (by omega)]
      exact preTick_store inp s hp
    · have ht : tick inp s = preTick inp s := by simp [tick, hso, hpw]
      rw [ht] at h ⊢
      exact preTick_store inp s (by rw [h]; rfl)

lemma tick_counts (inp : TickInput) (s : AppState) :
    (tick inp s).2.processed.count ProcEvent.evPipeToggle
      = (if s.toggle_signal then 1 else 0)
    ∧ (tick inp s).2.processed.count ProcEvent.evHotkeyToggle
      = s.hotkeyQueue.count s.toggle_hotkey_id := by
  obtain ⟨-, -, -, -, -, hproc⟩ := tick_transfer inp s
  rw [hproc]
  constructor
  · simp [preTick, emptyLog]
  · simp [preTick, emptyLog]

lemma applyArrivals_pipe :
    ∀ (n : Nat) (s : AppState), 0 < n →
    (applyArrivals s (List.replicate n Arrival.pipeWrite)).toggle_signal
      = true := by
  intro n
  induction n with
  | zero => intro s h; omega
  | succ k ih =>
    intro s h
    rw [List.replicate_succ]
    by_cases hk : 0 < k
    · exact ih ({ s with toggle_signal := true }) hk
    · have hk0 : k = 0 := by omega
      subst hk0
      rfl

lemma applyArrivals_tray (s : AppState) (a b : String)
    (ha : a ≠ "quit") (hb : b ≠ "quit") :
    (applyArrivals s [Arrival.trayEvt a, Arrival.trayEvt b]).tray_action
      = decodeTray b := by
  simp [applyArrivals, applyArrival, ha, hb]

/-! The claims. -/

/-- Claim C1: in every tick where dragging is true, the settings panel is
open, or a parameter prompt is pending, the auto-hide path never calls
hide (so a focused-to-unfocused transition cannot cause a
Visible-to-Hidden transition through it); moreover, absent pending toggle
signals the visibility state is unchanged by the tick.  Holds from any
reachable state, hence for any sequence of ticks. -/
theorem claim_C1 (s : AppState) (inp : TickInput)
    (h : s.dragging = true ∨ s.settingsOpen = true ∨ s.pending_w = true) :
    (tick inp s).2.auto_hide_fired = false
    ∧ (s.toggle_signal = false → s.tray_action = TRAY_NONE →
        s.hotkeyQueue = [] → inp.dialogAction = none →
        (tick inp s).1.is_visible = s.is_visible) := by
  refine ⟨tick_fired inp s (by tauto), fun hf ht hq hd => ?_⟩
  exact tick_vis inp s (by tauto) hf ht hq hd

/-- Witness for C1: a visible window that is mid-drag, has focus, has
auto-hide enabled, and loses focus this tick does not auto-hide. -/
theorem claim_C1_witness :
    (tick baseInput c1state).2.auto_hide_fired = false
    ∧ (tick baseInput c1state).1.is_visible = c1state.is_visible := by
  have h := claim_C1 c1state baseInput (Or.inl rfl)
  exact ⟨h.1, h.2 rfl rfl rfl rfl⟩

/-- Claim C2: starting from a Visible state, N ToggleVisibility signals
delivered one per tick (one FIFO write per tick, no other signals, auto-hide
off) leave the state Visible exactly when N is even. -/
theorem claim_C2 (N : Nat) (s : AppState)
    (h0 : s.is_visible = true) (h1 : s.settings.hide_on_inactive = false)
    (h2 : s.tray_action = TRAY_NONE) (h3 : s.hotkeyQueue = []) :
    (runTrace s (List.replicate N pipeStep)).1.is_visible
      = decide (N % 2 = 0) := by
  rw [c2_aux N s h1 h2 h3, h0]
  rcases Nat.mod_two_eq_zero_or_one N with h | h <;> simp [h]

/-- Witness for C2: three toggles starting Visible end Hidden. -/
theorem claim_C2_witness :
    (runTrace (initState quietSettings 7)
      (List.replicate 3 pipeStep)).1.is_visible = false := by
  have h := claim_C2 3 (initState quietSettings 7) rfl rfl rfl rfl
  simpa using h

/-- Counterexample for C3: two FIFO writes delivered before one tick are
consumed as a single ToggleVisibility event (the claim demands two), and
of two tray actions delivered before one tick only the last is processed
(the claim demands both). -/
theorem claim_C3_counterexample :
    (runStep (initState quietSettings 7)
        { arrivals := [Arrival.pipeWrite, Arrival.pipeWrite],
          inp := baseInput }).2.processed = [ProcEvent.evPipeToggle]
    ∧ (runStep (initState quietSettings 7)
        { arrivals := [Arrival.pipeWrite, Arrival.pipeWrite],
          inp := baseInput }).2.processed.length ≠ 2
    ∧ (runStep (initState quietSettings 7)
        { arrivals := [Arrival.trayEvt "show_hide", Arrival.trayEvt "settings"],
          inp := baseInput }).2.processed = [ProcEvent.evTraySettings] := by
  decide

/-- Claim C3 (amended): the FIFO producer coalesces — any positive number
of pipe writes before a tick yields exactly one pipe toggle event; the
tray slot keeps only the last action delivered before the tick; only the
hotkey queue is drained without coalescing, one toggle per queued event
carrying the registered id. -/
theorem claim_C3_amended :
    (∀ (s : AppState) (inp : TickInput) (n : Nat), 0 < n →
      (tick inp (applyArrivals s
          (List.replicate n Arrival.pipeWrite))).2.processed.count
        ProcEvent.evPipeToggle = 1)
    ∧ (∀ (s : AppState) (a b : String), a ≠ "quit" → b ≠ "quit" →
        (applyArrivals s [Arrival.trayEvt a, Arrival.trayEvt b]).tray_action
          = decodeTray b)
    ∧ (∀ (s : AppState) (inp : TickInput),
        (tick inp s).2.processed.count ProcEvent.evHotkeyToggle
          = s.hotkeyQueue.count s.toggle_hotkey_id) := by
  refine ⟨?_, ?_, ?_⟩
  · intro s inp n hn
    have hflag := applyArrivals_pipe n s hn
    have hc := (tick_counts inp
      (applyArrivals s (List.replicate n Arrival.pipeWrite))).1
    rw [hc, hflag]
    simp
  · intro s a b ha hb
    exact applyArrivals_tray s a b ha hb
  · intro s inp
    exact (tick_counts inp s).2

/-- Witness for C3 (amended): two pipe writes give one event; of the two
tray actions show_hide then settings, settings wins. -/
theorem claim_C3_witness :
    (tick baseInput (applyArrivals (initState quietSettings 7)
        (List.replicate 2 Arrival.pipeWrite))).2.processed.count
      ProcEvent.evPipeToggle = 1
    ∧ (applyArrivals (initState quietSettings 7)
        [Arrival.trayEvt "show_hide", Arrival.trayEvt "settings"]).tray_action
      = decodeTray "settings" := by
  refine ⟨claim_C3_amended.1 (initState quietSettings 7) baseInput 2
    (by decide), ?_⟩
  exact claim_C3_amended.2.1 (initState quietSettings 7) "show_hide"
    "settings" (by decide) (by decide)

/-- Counterexample for C4: hiding persists the cached position (4, 5);
the later Save and Close in the settings panel rewrites the settings file
from the draft cloned at panel-open time, resetting the persisted
window_x back to none — a store write of the position fields by an
operation that is neither Hide nor Quit (its write log is [wApply]). -/
theorem claim_C4_counterexample :
    (runTrace c4state [c4step1, c4step2]).1.store.window_x = some 4
    ∧ (runTrace c4state [c4step1, c4step2, c4step3]).1.store.window_x = none
    ∧ ((runTrace c4state [c4step1, c4step2, c4step3]).2.map
        TickLog.store_src)
      = [[], [WriteSource.wHide], [WriteSource.wApply]] := by
  decide

/-- Claim C4 (amended): the settings store changes during a tick only when
a Hide, Quit, or settings-panel apply write site ran (so fresh positions
are persisted only by Hide/Quit, but apply_settings also rewrites the
file, position fields included, from the panel draft); show never writes
the store. -/
theorem claim_C4_amended (inp : TickInput) (s : AppState)
    (h : (tick inp s).2.store_src = []) :
    (tick inp s).1.store = s.store ∧ (showOp s).store = s.store :=
  ⟨tick_store inp s h, rfl⟩

/-- Witness for C4 (amended): an idle tick logs no write site and leaves
the store unchanged. -/
theorem claim_C4_witness :
    (tick baseInput (initState quietSettings 7)).1.store
      = (initState quietSettings 7).store
    ∧ (showOp (initState quietSettings 7)).store
      = (initState quietSettings 7).store :=
  claim_C4_amended baseInput (initState quietSettings 7) (by decide)

/-- Claim C5: if a position p is cached and Hide is triggered, the
persisted window_x / window_y equal p exactly and no fresh query is
issued (save_position's fresh-query flag is false); if neither a cached
value nor a fresh query result is available, the store is left
untouched. -/
theorem claim_C5 (s : AppState) (q : Option Pos) :
    (∀ p : Pos, s.last_known_pos = some p →
      (hideOp q s).store.window_x = some p.x
      ∧ (hideOp q s).store.window_y = some p.y
      ∧ (save_position q s).2 = false)
    ∧ (s.last_known_pos = none → q = none →
        (hideOp q s).store = s.store ∧ (hideOp q s).is_visible = false) := by
  constructor
  · intro p hp
    simp [hideOp, save_position, hp, writePos]
  · intro h1 h2
    simp [hideOp, save_position, h1, h2]

/-- Witness for C5: hiding with (120, 340) cached persists exactly
(120, 340) without a query; hiding with nothing available leaves the
store unchanged. -/
theorem claim_C5_witness :
    (hideOp none c5state).store.window_x = some 120
    ∧ (hideOp none c5state).store.window_y = some 340
    ∧ (save_position none c5state).2 = false
    ∧ (hideOp none (initState quietSettings 7)).store
        = (initState quietSettings 7).store := by
  have h1 := (claim_C5 c5state none).1 ⟨120, 340⟩ rfl
  have h2 := (claim_C5 (initState quietSettings 7) none).2 rfl rfl
  exact ⟨h1.1, h1.2.1, h1.2.2, h2.1⟩

/-- Claim C6: starting with zero attempts, the window lookup runs at most
10 times over any trace of ticks; and once the handle is resolved
(non-zero), a tick never changes it and never re-runs the lookup. -/
theorem claim_C6 :
    (∀ (steps : List Step) (s : AppState), s.x11_search_attempts = 0 →
      ((runTrace s steps).2.countP (fun l => l.locator_ran)) ≤ 10)
    ∧ (∀ (s : AppState) (inp : TickInput), s.x11_window_id ≠ 0 →
        (tick inp s).1.x11_window_id = s.x11_window_id
        ∧ (tick inp s).2.locator_ran = false) := by
  constructor
  · intro steps s h
    have h2 := runTrace_locator_count steps s (by omega)
    omega
  · intro s inp h
    exact (tick_locator inp s).2.2 h

/-- Witness for C6: a three-tick trace runs the lookup at most 10 times,
and a tick on a state with handle 1 keeps the handle and skips the
lookup. -/
theorem claim_C6_witness :
    ((runTrace (initState quietSettings 7)
        [pipeStep, pipeStep, pipeStep]).2.countP (fun l => l.locator_ran))
      ≤ 10
    ∧ ((tick baseInput c4state).1.x11_window_id = c4state.x11_window_id
        ∧ (tick baseInput c4state).2.locator_ran = false) :=
  ⟨claim_C6.1 [pipeStep, pipeStep, pipeStep] (initState quietSettings 7) rfl,
   claim_C6.2 c4state baseInput (by decide)⟩

/-- Counterexample for C7: with (7, 8) cached by a query at 1000 ms, a
hide at 1100 ms and a show at 1300 ms are followed by a Visible tick at
1500 ms that issues no query — the very first query of the new Visible
period is delayed by the one-second interval, contrary to the claim. -/
theorem claim_C7_counterexample :
    (runTrace c7state [c7step1]).1.is_visible = false
    ∧ (runTrace c7state [c7step1, c7step2]).1.is_visible = true
    ∧ ((runTrace c7state [c7step1, c7step2, c7step3]).2.map
        TickLog.poll_query) = [false, false, false] := by
  decide

/-- Claim C7 (amended): a tick issues a position query exactly when the
state is Visible and either no position is cached or more than one second
has passed since the last query attempt.  Hence no query is ever issued
while Hidden; once a position is cached, queries are at least one second
apart; but the first query after re-becoming Visible can be delayed by up
to the interval, and while nothing is cached a query runs every tick. -/
theorem claim_C7_amended (inp : TickInput) (s : AppState) :
    (tick inp s).2.poll_query = true ↔
      s.is_visible = true
      ∧ (s.last_known_pos = none ∨ 1000 < inp.now - s.last_pos_query) :=
  tick_poll inp s

/-- Claim C8: each of the five external-call failure sites — hotkey
registration, handle lookup, activation, position query, settings write —
returns normally on failure with no effect (an Except.error result would
model a panic; none is ever produced). -/
theorem claim_C8 (msg : String) (ser : Option String) :
    register_hotkey_handling (RegisterOutcome.regErr msg) = Except.ok ()
    ∧ find_own_x11_window (Except.error msg) = none
    ∧ activate_x11_window_by_id (Except.error msg) = Except.ok ()
    ∧ get_mutter_window_position none = none
    ∧ settings_save ser (Except.error msg) = Except.ok () := by
  refine ⟨rfl, rfl, rfl, rfl, ?_⟩
  cases ser <;> rfl

/-- Claim C9: the tray quit handler persists the shared cached position
only when it is not exactly (0, 0); a (0, 0) cache is treated as unknown
and the stored geometry is left untouched (only the quit flag is set). -/
theorem claim_C9 (s : AppState) :
    (s.shared_pos = ⟨0, 0⟩ →
      trayQuitHandler s = { s with quitting := true })
    ∧ (s.shared_pos ≠ ⟨0, 0⟩ →
        (trayQuitHandler s).store.window_x = some s.shared_pos.x
        ∧ (trayQuitHandler s).store.window_y = some s.shared_pos.y
        ∧ (trayQuitHandler s).quitting = true) := by
  constructor
  · intro h
    simp [trayQuitHandler, h]
  · intro h
    simp [trayQuitHandler, h]

/-- Witness for C9: quitting with the shared cell at the origin leaves the
store untouched; quitting with (120, 340) persists it. -/
theorem claim_C9_witness :
    trayQuitHandler (initState quietSettings 7)
      = { initState quietSettings 7 with quitting := true }
    ∧ (trayQuitHandler c9state).store.window_x = some 120
    ∧ (trayQuitHandler c9state).store.window_y = some 340 := by
  have h1 := (claim_C9 (initState quietSettings 7)).1 rfl
  have h2 := (claim_C9 c9state).2 (by decide)
  exact ⟨h1, h2.1, h2.2.1⟩

/-- Claim C10: the compositor position query rejects any reply with a
negative coordinate; consequently such a position is never cached by the
tick and never persisted from a fresh query by save_position. -/
theorem claim_C10 (x y : Int) (s : AppState) (inp : TickInput)
    (hneg : x < 0 ∨ y < 0) :
    get_mutter_window_position (some (x, y)) = none
    ∧ (inp.rawQuery = some (x, y) →
        (tick inp s).1.last_known_pos = s.last_known_pos)
    ∧ (s.last_known_pos = none →
        (save_position (get_mutter_window_position (some (x, y))) s).1.store
          = s.store) := by
  have hm : get_mutter_window_position (some (x, y)) = none := by
    simp only [get_mutter_window_position]
    split
    · rename_i hpos
      exfalso
      omega
    · rfl
  refine ⟨hm, fun hr => ?_, fun hl => ?_⟩
  · exact tick_lkp inp s (by rw [hr]; exact hm)
  · rw [hm]
    simp [save_position, hl]

/-- Witness for C10: the reply (-3, 7) is rejected, not cached and not
persisted. -/
theorem claim_C10_witness :
    get_mutter_window_position (some (-3, 7)) = none
    ∧ (tick c10input (initState quietSettings 7)).1.last_known_pos
        = (initState quietSettings 7).last_known_pos
    ∧ (save_position (get_mutter_window_position (some (-3, 7)))
        (initState quietSettings 7)).1.store
      = (initState quietSettings 7).store := by
  have h := claim_C10 (-3) 7 (initState quietSettings 7) c10input
    (Or.inl (by decide))
  exact ⟨h.1, h.2.1 rfl, h.2.2 rfl⟩

end SlickRun
